import Mathlib

/-!
Verification of the iPerfer measurement tool (src/cpp/src/iPerfer.cpp).

The C++ program is embedded shallowly:
* socket primitives (`send`, `recv`) become oracles: each call to the
  primitive is a function from the requested byte count to the `ssize_t`
  result, consumed in order from a list;
* `std::chrono` clock reads become an oracle `Nat → ℚ` indexed by the
  order of the calls; `double` arithmetic is modelled exactly over `ℚ`;
* success/failure of a whole `sendAll`/`recvAll` call inside the phase
  loops is modelled by `Nat → Bool` oracles indexed by the iteration;
* the unbounded `while` loops of the transfer phase take explicit fuel
  and return `none` when the fuel runs out.
-/

namespace IPerfer

/-- Constant `ONE_BYTE_SIZE` (iPerfer.cpp line 16). -/
def ONE_BYTE_SIZE : Nat := 1

/-- Constant `CHUNK_SIZE` (iPerfer.cpp line 17): 80 KB chunks. -/
def CHUNK_SIZE : Nat := 80000

/-- Constant `RTT_EXCHANGES` (iPerfer.cpp line 19): the client performs 8
round trips and the server measures 7 deltas. -/
def RTT_EXCHANGES : Nat := 8

/-- A trace of results of the underlying `send`/`recv` primitive: each
entry maps the requested count (`len - total` at the time of the call)
to the returned `ssize_t` (`< 0` hard error, `= 0` peer closed,
`> 0` bytes transferred). -/
def PrimTrace : Type := List (Nat → Int)

/-- POSIX guarantee used by the loops in `sendAll`/`recvAll`: a primitive
never transfers more bytes than were requested. -/
def primBounded (prims : List (Nat → Int)) : Prop :=
  ∀ p ∈ prims, ∀ c, (p c).toNat ≤ c

/-- Loop body of `sendAll` (iPerfer.cpp lines 21-40): while
`totalSent < len`, call the primitive with `len - totalSent`; a negative
result or a zero result returns `false`, otherwise `totalSent` advances.
Returns (success flag, `totalSent`, number of primitive calls made); an
exhausted trace with the loop still unsatisfied is a failure. -/
def sendAllLoop (len : Nat) (prims : List (Nat → Int)) (totalSent calls : Nat) :
    Bool × Nat × Nat :=
  if len ≤ totalSent then (true, totalSent, calls)
  else
    match prims with
    | [] => (false, totalSent, calls)
    | p :: rest =>
      let sent := p (len - totalSent)
      if sent < 0 then (false, totalSent, calls + 1)
      else if sent = 0 then (false, totalSent, calls + 1)
      else sendAllLoop len rest (totalSent + sent.toNat) (calls + 1)

/-- `sendAll(sockfd, buffer, len)` of iPerfer.cpp lines 21-40. -/
def sendAll (prims : List (Nat → Int)) (len : Nat) : Bool × Nat × Nat :=
  sendAllLoop len prims 0 0

/-- Loop body of `recvAll` (iPerfer.cpp lines 42-61); structurally the
same loop as `sendAllLoop` with `recv` in place of `send`. -/
def recvAllLoop (len : Nat) (prims : List (Nat → Int)) (totalRecv calls : Nat) :
    Bool × Nat × Nat :=
  if len ≤ totalRecv then (true, totalRecv, calls)
  else
    match prims with
    | [] => (false, totalRecv, calls)
    | p :: rest =>
      let r := p (len - totalRecv)
      if r < 0 then (false, totalRecv, calls + 1)
      else if r = 0 then (false, totalRecv, calls + 1)
      else recvAllLoop len rest (totalRecv + r.toNat) (calls + 1)

/-- `recvAll(sockfd, buffer, len)` of iPerfer.cpp lines 42-61. -/
def recvAll (prims : List (Nat → Int)) (len : Nat) : Bool × Nat × Nat :=
  recvAllLoop len prims 0 0

/-- A primitive that transfers everything requested in one call. -/
def idPrim : Nat → Int := fun c => (c : Int)

/-- The send loop invariant: a `true` result carries `totalSent = len`,
as long as no primitive overshoots its requested count and the running
total has not overshot yet. -/
theorem sendAllLoop_exact (len : Nat) :
    ∀ (prims : List (Nat → Int)) (totalSent calls t k : Nat),
      primBounded prims → totalSent ≤ len →
      sendAllLoop len prims totalSent calls = (true, t, k) → t = len := by
  intro prims
  induction prims with
  | nil =>
    intro totalSent calls t k _ hle h
    rw [sendAllLoop] at h
    split at h
    · next hc => obtain ⟨rfl, rfl⟩ := Prod.mk.injEq .. ▸ (Prod.mk.inj h).2; omega
    · exact absurd (Prod.mk.inj h).1 (by simp)
  | cons p rest ih =>
    intro totalSent calls t k hb hle h
    rw [sendAllLoop] at h
    split at h
    · next hc => obtain ⟨rfl, rfl⟩ := Prod.mk.injEq .. ▸ (Prod.mk.inj h).2; omega
    · next hc =>
      simp only at h
      split at h
      · exact absurd (Prod.mk.inj h).1 (by simp)
      · split at h
        · exact absurd (Prod.mk.inj h).1 (by simp)
        · have hbound : (p (len - totalSent)).toNat ≤ len - totalSent :=
            hb p (List.mem_cons_self p rest) (len - totalSent)
          exact ih (totalSent + (p (len - totalSent)).toNat) (calls + 1) t k
            (fun q hq c => hb q (List.mem_cons_of_mem p hq) c) (by omega) h

/-- The recv loop invariant, the mirror image of `sendAllLoop_exact`. -/
theorem recvAllLoop_exact (len : Nat) :
    ∀ (prims : List (Nat → Int)) (totalRecv calls t k : Nat),
      primBounded prims → totalRecv ≤ len →
      recvAllLoop len prims totalRecv calls = (true, t, k) → t = len := by
  intro prims
  induction prims with
  | nil =>
    intro totalRecv calls t k _ hle h
    rw [recvAllLoop] at h
    split at h
    · next hc => obtain ⟨rfl, rfl⟩ := Prod.mk.injEq .. ▸ (Prod.mk.inj h).2; omega
    · exact absurd (Prod.mk.inj h).1 (by simp)
  | cons p rest ih =>
    intro totalRecv calls t k hb hle h
    rw [recvAllLoop] at h
    split at h
    · next hc => obtain ⟨rfl, rfl⟩ := Prod.mk.injEq .. ▸ (Prod.mk.inj h).2; omega
    · next hc =>
      simp only at h
      split at h
      · exact absurd (Prod.mk.inj h).1 (by simp)
      · split at h
        · exact absurd (Prod.mk.inj h).1 (by simp)
        · have hbound : (p (len - totalRecv)).toNat ≤ len - totalRecv :=
            hb p (List.mem_cons_self p rest) (len - totalRecv)
          exact ih (totalRecv + (p (len - totalRecv)).toNat) (calls + 1) t k
            (fun q hq c => hb q (List.mem_cons_of_mem p hq) c) (by omega) h

/-- C7: for every call to the reliable I/O operations with length `L`
(and primitives obeying the POSIX bound), a successful return means
exactly `L` bytes were transferred, looping over partial transfers of
the underlying primitive; otherwise the call reports failure (`false`)
— there is never a silent partial-success return. -/
theorem reliable_io_exact_length (prims qrims : List (Nat → Int)) (lenS lenR : Nat)
    (hs : primBounded prims) (hr : primBounded qrims) :
    ((sendAll prims lenS).1 = true → (sendAll prims lenS).2.1 = lenS) ∧
    ((recvAll qrims lenR).1 = true → (recvAll qrims lenR).2.1 = lenR) := by
  constructor
  · intro h
    have hx : sendAll prims lenS =
        (true, (sendAll prims lenS).2.1, (sendAll prims lenS).2.2) := by
      rw [← h]
    exact sendAllLoop_exact lenS prims 0 0 _ _ hs (Nat.zero_le _) hx
  · intro h
    have hx : recvAll qrims lenR =
        (true, (recvAll qrims lenR).2.1, (recvAll qrims lenR).2.2) := by
      rw [← h]
    exact recvAllLoop_exact lenR qrims 0 0 _ _ hr (Nat.zero_le _) hx

/-- Witness for C7 at a concrete trace: one full-transfer primitive,
send length 5 and recv length 3. -/
theorem reliable_io_exact_length_witness :
    (sendAll [idPrim] 5).2.1 = 5 ∧ (recvAll [idPrim] 3).2.1 = 3 := by
  have hb : primBounded [idPrim] := by
    intro p hp c
    simp only [List.mem_singleton] at hp
    subst hp
    simp [idPrim]
  exact ⟨(reliable_io_exact_length [idPrim] [idPrim] 5 3 hb hb).1 (by decide),
         (reliable_io_exact_length [idPrim] [idPrim] 5 3 hb hb).2 (by decide)⟩

/-- C9: calling `sendAll` or `recvAll` with length 0 returns success
immediately — zero bytes accumulated and zero calls to the underlying
primitive, whatever the primitive trace holds. -/
theorem zero_length_io (prims : List (Nat → Int)) :
    sendAll prims 0 = (true, 0, 0) ∧ recvAll prims 0 = (true, 0, 0) := by
  constructor
  · rw [sendAll, sendAllLoop.eq_def]
    simp
  · rw [recvAll, recvAllLoop.eq_def]
    simp

/-- Result of the throughput computation, the values the summary line
prints (net seconds kept as well, spec §3 ThroughputResult). -/
structure ThroughputResult where
  netSeconds : ℚ
  rateMbps : ℚ
  totalKB : Nat
  deriving Repr, DecidableEq

/-- The throughput calculation of iPerfer.cpp lines 206-224 (server) and
lines 361-380 (client) — the two code blocks are identical: subtract
`chunkCount * avgRTTsec` from the measured wall time, fall back to the
raw wall time when the difference is negative, divide out the rate when
the net time is positive, and report decimal kilobytes. `double`
arithmetic is modelled exactly over `ℚ`; `bytes` (`long long` in the
source) is a `Nat` since both roles only ever accumulate nonnegative
whole chunks. -/
def computeThroughput (bytes chunkCount : Nat) (elapsedSeconds avgRTTsec : ℚ) :
    ThroughputResult :=
  let netRaw : ℚ := elapsedSeconds - (chunkCount : ℚ) * avgRTTsec
  let netSeconds : ℚ := if netRaw < 0 then elapsedSeconds else netRaw
  let rateMbps : ℚ :=
    if 0 < netSeconds then ((bytes : ℚ) * 8 / netSeconds) / 1000000 else 0
  ⟨netSeconds, rateMbps, bytes / 1000⟩

/-- C1: for every input tuple, the calculator computes
`netSeconds = elapsedSeconds - chunkCount * rttEstimateSeconds`,
replaces it with `elapsedSeconds` whenever that difference is negative,
returns `rateMbps = bytes * 8 / netSeconds / 1000000` when
`netSeconds > 0` and `0` otherwise, and `totalKB = bytes / 1000`.  The
three equations determine the whole `ThroughputResult` from the input
tuple, so the same tuple always yields the same result (the calculator
is a pure function of its arguments). -/
theorem computeThroughput_formula (bytes chunkCount : Nat) (elapsed rtt : ℚ) :
    (computeThroughput bytes chunkCount elapsed rtt).netSeconds =
      (if elapsed - (chunkCount : ℚ) * rtt < 0 then elapsed
       else elapsed - (chunkCount : ℚ) * rtt) ∧
    (computeThroughput bytes chunkCount elapsed rtt).rateMbps =
      (if 0 < (computeThroughput bytes chunkCount elapsed rtt).netSeconds then
        (bytes : ℚ) * 8 / (computeThroughput bytes chunkCount elapsed rtt).netSeconds
          / 1000000
       else 0) ∧
    (computeThroughput bytes chunkCount elapsed rtt).totalKB = bytes / 1000 := by
  refine ⟨rfl, ?_, rfl⟩
  rw [computeThroughput]

/-- The RTT reduction of iPerfer.cpp lines 160-172 (server) and lines
306-318 (client) — the two code blocks are identical: when at least one
sample exists, average the entries from `startIndex = n - 4` (or `0`
when `n ≤ 4`) up to `n - 1`; otherwise the estimate stays `0`.  The
index loop `for (i = startIndex; i < n; ...) sum += rttSamples[i]` is
the sum of the suffix obtained by dropping `startIndex` entries. -/
def avgRTT (samples : List ℚ) : ℚ :=
  let n := samples.length
  if 0 < n then
    let startIndex := if 4 < n then n - 4 else 0
    let sum := (samples.drop startIndex).sum
    let count := n - startIndex
    sum / (count : ℚ)
  else 0

/-- Statement of the spec's reduction (spec §4.2), written from its
words: the arithmetic mean of the last `min(4, n)` entries in arrival
order, and `0` when no samples exist. -/
def rttEstimateSpec (samples : List ℚ) : ℚ :=
  let k := min 4 samples.length
  if k = 0 then 0 else (samples.drop (samples.length - k)).sum / (k : ℚ)

/-- C2: for every sequence of RTT samples of length `n ≥ 0`, the code's
estimate (shared verbatim between the two roles) equals the arithmetic
mean of the last `min(4, n)` samples in arrival order, and equals `0`
when `n = 0`; samples before the last four never contribute, since only
the suffix past `n - min(4, n)` is summed. -/
theorem avgRTT_eq_spec (samples : List ℚ) : avgRTT samples = rttEstimateSpec samples := by
  rw [avgRTT, rttEstimateSpec]
  by_cases h0 : 0 < samples.length
  · by_cases h4 : 4 < samples.length
    · have hk : min 4 samples.length = 4 := by omega
      have hcount : samples.length - (samples.length - 4) = 4 := by omega
      simp [h0, h4, hk, hcount]
    · have hk : min 4 samples.length = samples.length := by omega
      have hne : samples.length ≠ 0 := by omega
      simp [h0, h4, hk, hne]
  · have hn : samples.length = 0 := by omega
    simp [hn]

/-- The client data-transfer loop of iPerfer.cpp lines 330-355.  Oracles:
`elapsedAt i` is the wall-clock seconds elapsed at the duration check of
iteration `i`; `sendOk i` / `recvOk i` tell whether the iteration's
80 KB `sendAll` / 1-byte ack `recvAll` succeed.  Returns
`some (totalBytesSent, chunkCount)` when the loop breaks, `none` when
the fuel runs out before any `break` fires.  Mirrors the code order:
duration check, chunk send (break on failure), both counters advance,
ack wait (break on failure). -/
def clientTransferLoop (elapsedAt : Nat → ℚ) (D : ℚ) (sendOk recvOk : Nat → Bool) :
    Nat → Nat → Nat → Nat → Option (Nat × Nat)
  | 0, _, _, _ => none
  | fuel + 1, i, totalBytes, chunkCount =>
    if D ≤ elapsedAt i then some (totalBytes, chunkCount)
    else if sendOk i = false then some (totalBytes, chunkCount)
    else if recvOk i = false then some (totalBytes + CHUNK_SIZE, chunkCount + 1)
    else clientTransferLoop elapsedAt D sendOk recvOk fuel (i + 1)
      (totalBytes + CHUNK_SIZE) (chunkCount + 1)

/-- The server data-transfer loop of iPerfer.cpp lines 183-201: receive a
full 80 KB chunk (break on failure), advance both counters, send the
1-byte ack (break on failure).  Same oracle and fuel conventions as
`clientTransferLoop`. -/
def serverTransferLoop (recvOk sendOk : Nat → Bool) :
    Nat → Nat → Nat → Nat → Option (Nat × Nat)
  | 0, _, _, _ => none
  | fuel + 1, i, totalBytes, chunkCount =>
    if recvOk i = false then some (totalBytes, chunkCount)
    else if sendOk i = false then some (totalBytes + CHUNK_SIZE, chunkCount + 1)
    else serverTransferLoop recvOk sendOk fuel (i + 1)
      (totalBytes + CHUNK_SIZE) (chunkCount + 1)

/-- C5: one step of the client Transfer loop, stated clause by clause —
the elapsed-time check comes before any send and stops the loop as soon
as `elapsed ≥ D`; a send failure stops the loop without counting; a
successful send advances byte total and chunk count before the ack
wait, so an ack-read failure still leaves the chunk counted; otherwise
the loop continues with the advanced counters. -/
theorem clientTransfer_step (elapsedAt : Nat → ℚ) (D : ℚ) (sendOk recvOk : Nat → Bool)
    (fuel i totalBytes chunkCount : Nat) :
    (D ≤ elapsedAt i →
      clientTransferLoop elapsedAt D sendOk recvOk (fuel + 1) i totalBytes chunkCount =
        some (totalBytes, chunkCount)) ∧
    (elapsedAt i < D → sendOk i = false →
      clientTransferLoop elapsedAt D sendOk recvOk (fuel + 1) i totalBytes chunkCount =
        some (totalBytes, chunkCount)) ∧
    (elapsedAt i < D → sendOk i = true → recvOk i = false →
      clientTransferLoop elapsedAt D sendOk recvOk (fuel + 1) i totalBytes chunkCount =
        some (totalBytes + CHUNK_SIZE, chunkCount + 1)) ∧
    (elapsedAt i < D → sendOk i = true → recvOk i = true →
      clientTransferLoop elapsedAt D sendOk recvOk (fuel + 1) i totalBytes chunkCount =
        clientTransferLoop elapsedAt D sendOk recvOk fuel (i + 1)
          (totalBytes + CHUNK_SIZE) (chunkCount + 1)) := by
  refine ⟨fun hd => ?_, fun hd hs => ?_, fun hd hs hr => ?_, fun hd hs hr => ?_⟩
  · rw [clientTransferLoop]
    rw [if_pos hd]
  · rw [clientTransferLoop]
    rw [if_neg (not_le.mpr hd), if_pos hs]
  · rw [clientTransferLoop]
    rw [if_neg (not_le.mpr hd), if_neg (by simp [hs]), if_pos hr]
  · rw [clientTransferLoop]
    rw [if_neg (not_le.mpr hd), if_neg (by simp [hs]), if_neg (by simp [hr])]

/-- Demo duration clock: iteration `i` sees `i` elapsed seconds. -/
def natClock : Nat → ℚ := fun k => (k : ℚ)

/-- Demo oracle: every I/O operation succeeds. -/
def allOk : Nat → Bool := fun _ => true

/-- Demo oracle: every I/O operation fails. -/
def noneOk : Nat → Bool := fun _ => false

/-- Demo send oracle failing only at iteration 1. -/
def sOkDemo : Nat → Bool := fun i => decide (i ≠ 1)

/-- Demo recv oracle failing only at iteration 2. -/
def rOkDemo : Nat → Bool := fun i => decide (i ≠ 2)

/-- Witness for C5: the four clauses of `clientTransfer_step` at
concrete iterations of a run with duration 10 s, a send failure at
iteration 1 and an ack failure at iteration 2. -/
theorem clientTransfer_step_witness :
    (clientTransferLoop natClock 10 sOkDemo rOkDemo 4 10 3 3 = some (3, 3)) ∧
    (clientTransferLoop natClock 10 sOkDemo rOkDemo 4 1 3 3 = some (3, 3)) ∧
    (clientTransferLoop natClock 10 sOkDemo rOkDemo 4 2 3 3 =
      some (3 + CHUNK_SIZE, 3 + 1)) ∧
    (clientTransferLoop natClock 10 sOkDemo rOkDemo 4 0 3 3 =
      clientTransferLoop natClock 10 sOkDemo rOkDemo 3 1 (3 + CHUNK_SIZE) (3 + 1)) :=
  ⟨(clientTransfer_step natClock 10 sOkDemo rOkDemo 3 10 3 3).1 (by norm_num [natClock]),
   (clientTransfer_step natClock 10 sOkDemo rOkDemo 3 1 3 3).2.1
     (by norm_num [natClock]) (by decide),
   (clientTransfer_step natClock 10 sOkDemo rOkDemo 3 2 3 3).2.2.1
     (by norm_num [natClock]) (by decide) (by decide),
   (clientTransfer_step natClock 10 sOkDemo rOkDemo 3 0 3 3).2.2.2
     (by norm_num [natClock]) (by decide) (by decide)⟩

/-- C8: in a server Transfer iteration whose chunk receive succeeds, the
byte total and chunk count advance before the acknowledgment is sent,
so the chunk stays counted even when sending the ack fails. -/
theorem serverTransfer_counts_before_ack (recvOk sendOk : Nat → Bool)
    (fuel i totalBytes chunkCount : Nat)
    (hrecv : recvOk i = true) (hsend : sendOk i = false) :
    serverTransferLoop recvOk sendOk (fuel + 1) i totalBytes chunkCount =
      some (totalBytes + CHUNK_SIZE, chunkCount + 1) := by
  rw [serverTransferLoop]
  rw [if_neg (by simp [hrecv]), if_pos hsend]

/-- Witness for C8: first chunk received, its ack send fails, the chunk
is still counted. -/
theorem serverTransfer_counts_before_ack_witness :
    serverTransferLoop allOk noneOk 5 0 0 0 = some (0 + CHUNK_SIZE, 0 + 1) :=
  serverTransfer_counts_before_ack allOk noneOk 4 0 0 0 (by decide) (by decide)

/-- Invariant of the client Transfer loop: the byte total tracks
`chunkCount * CHUNK_SIZE` because the two counters only ever advance
together, by `CHUNK_SIZE` and by `1`. -/
theorem clientTransferLoop_invariant (elapsedAt : Nat → ℚ) (D : ℚ)
    (sendOk recvOk : Nat → Bool) :
    ∀ (fuel i totalBytes chunkCount b c : Nat),
      clientTransferLoop elapsedAt D sendOk recvOk fuel i totalBytes chunkCount =
        some (b, c) →
      totalBytes = chunkCount * CHUNK_SIZE → b = c * CHUNK_SIZE := by
  intro fuel
  induction fuel with
  | zero =>
    intro i totalBytes chunkCount b c h
    rw [clientTransferLoop] at h
    exact absurd h (by simp)
  | succ fuel ih =>
    intro i totalBytes chunkCount b c h hinv
    rw [clientTransferLoop] at h
    split at h
    · obtain ⟨rfl, rfl⟩ := Prod.mk.injEq .. ▸ Option.some.inj h
      exact hinv
    · split at h
      · obtain ⟨rfl, rfl⟩ := Prod.mk.injEq .. ▸ Option.some.inj h
        exact hinv
      · split at h
        · obtain ⟨rfl, rfl⟩ := Prod.mk.injEq .. ▸ Option.some.inj h
          rw [hinv, Nat.succ_mul]
        · exact ih (i + 1) _ _ b c h (by rw [hinv, Nat.succ_mul])

/-- Invariant of the server Transfer loop, same shape as the client's. -/
theorem serverTransferLoop_invariant (recvOk sendOk : Nat → Bool) :
    ∀ (fuel i totalBytes chunkCount b c : Nat),
      serverTransferLoop recvOk sendOk fuel i totalBytes chunkCount = some (b, c) →
      totalBytes = chunkCount * CHUNK_SIZE → b = c * CHUNK_SIZE := by
  intro fuel
  induction fuel with
  | zero =>
    intro i totalBytes chunkCount b c h
    rw [serverTransferLoop] at h
    exact absurd h (by simp)
  | succ fuel ih =>
    intro i totalBytes chunkCount b c h hinv
    rw [serverTransferLoop] at h
    split at h
    · obtain ⟨rfl, rfl⟩ := Prod.mk.injEq .. ▸ Option.some.inj h
      exact hinv
    · split at h
      · obtain ⟨rfl, rfl⟩ := Prod.mk.injEq .. ▸ Option.some.inj h
        rw [hinv, Nat.succ_mul]
      · exact ih (i + 1) _ _ b c h (by rw [hinv, Nat.succ_mul])

/-- The server RTT loop of iPerfer.cpp lines 128-157.  `clock` is the
oracle of `high_resolution_clock::now()` readings in call order;
`clock 0` is already consumed by the initialisation on line 125, so the
loop starts at call index 1.  Each iteration receives one probe byte
(abort on failure), measures `now - ackSendTime` when a previous
post-send timestamp exists and appends it to `samples`, sends the ack
byte (abort on failure), and finally stores the fresh post-send
timestamp (also collected into `postSend` for the statements below). -/
def serverRttLoop (recvOk sendOk : Nat → Bool) (clock : Nat → ℚ) :
    Nat → Nat → Nat → ℚ → Bool → List ℚ → List ℚ → Option (List ℚ × List ℚ)
  | 0, _, _, _, _, samples, postSend => some (samples, postSend)
  | remaining + 1, i, callIdx, ackSendTime, haveLast, samples, postSend =>
    if recvOk i = false then none
    else
      let samples2 := if haveLast then samples ++ [clock callIdx - ackSendTime] else samples
      let callIdx2 := if haveLast then callIdx + 1 else callIdx
      if sendOk i = false then none
      else
        serverRttLoop recvOk sendOk clock remaining (i + 1) (callIdx2 + 1)
          (clock callIdx2) true samples2 (postSend ++ [clock callIdx2])

/-- The server RTT phase entry (iPerfer.cpp lines 120-157): initial
`ackSendTime = now()` (call index 0), `haveLastAckTime = false`, and
`RTT_EXCHANGES` loop iterations. -/
def serverRttPhase (recvOk sendOk : Nat → Bool) (clock : Nat → ℚ) :
    Option (List ℚ × List ℚ) :=
  serverRttLoop recvOk sendOk clock RTT_EXCHANGES 0 1 (clock 0) false [] []

/-- A fully successful server RTT phase, closed form: seven samples
`clock (2k) - clock (2k-1)` and eight post-send timestamps
`clock (2k+1)`. -/
theorem serverRttPhase_allOk (recvOk sendOk : Nat → Bool) (clock : Nat → ℚ)
    (h1 : ∀ i, recvOk i = true) (h2 : ∀ i, sendOk i = true) :
    serverRttPhase recvOk sendOk clock =
      some ([clock 2 - clock 1, clock 4 - clock 3, clock 6 - clock 5, clock 8 - clock 7,
             clock 10 - clock 9, clock 12 - clock 11, clock 14 - clock 13],
            [clock 1, clock 3, clock 5, clock 7, clock 9, clock 11, clock 13, clock 15]) := by
  simp [serverRttPhase, RTT_EXCHANGES, serverRttLoop, h1, h2]

/-- Counterexample to C4 as stated.  With every I/O succeeding and the
clock reading `k` at its `k`-th call, the code's first sample (appended
at iteration 2) is `clock 2 - clock 1 = 1`: the minuend is the
timestamp taken after that iteration's receive, before its send.  The
delta of post-send timestamps claimed by C4 is
`clock 3 - clock 1 = 2`, so the claimed equality fails. -/
theorem serverRtt_sample_ne_postSend_delta :
    serverRttPhase allOk allOk natClock =
      some ([1, 1, 1, 1, 1, 1, 1], [1, 3, 5, 7, 9, 11, 13, 15]) ∧
    ¬ (([1, 1, 1, 1, 1, 1, 1] : List ℚ).getD 0 0 =
        ([1, 3, 5, 7, 9, 11, 13, 15] : List ℚ).getD 1 0 -
          ([1, 3, 5, 7, 9, 11, 13, 15] : List ℚ).getD 0 0) := by
  constructor
  · rw [serverRttPhase_allOk allOk allOk natClock (fun _ => rfl) (fun _ => rfl)]
    norm_num [natClock]
  · norm_num [List.getD_cons_zero, List.getD_cons_succ]

/-- C4 as amended: in every server run whose RTT phase completes all
`RTT_EXCHANGES` iterations (modelled as: all receive and send acks of
the phase succeed), the server collects exactly `RTT_EXCHANGES - 1`
samples; the post-send timestamp of iteration `i + 1` is the clock
reading `clock (2i + 1)`, and the sample appended at iteration `i + 2`
equals the clock reading taken after that iteration's receive — before
its send, namely `clock (2(i + 1))` — minus the previous iteration's
post-send timestamp.  (C4 said the minuend was the current iteration's
post-send timestamp; the code takes the timestamp between the receive
and the send.) -/
theorem serverRtt_samples_amended (recvOk sendOk : Nat → Bool) (clock : Nat → ℚ)
    (h1 : ∀ i, recvOk i = true) (h2 : ∀ i, sendOk i = true)
    (s ps : List ℚ) (hres : serverRttPhase recvOk sendOk clock = some (s, ps)) :
    s.length = RTT_EXCHANGES - 1 ∧ ps.length = RTT_EXCHANGES ∧
    (∀ i, i < RTT_EXCHANGES → ps.getD i 0 = clock (2 * i + 1)) ∧
    (∀ i, i < RTT_EXCHANGES - 1 →
      s.getD i 0 = clock (2 * (i + 1)) - ps.getD i 0) := by
  rw [serverRttPhase_allOk recvOk sendOk clock h1 h2] at hres
  obtain ⟨rfl, rfl⟩ := Prod.mk.injEq .. ▸ Option.some.inj hres
  refine ⟨rfl, rfl, ?_, ?_⟩
  · intro i hi
    rw [RTT_EXCHANGES] at hi
    interval_cases i <;> rfl
  · intro i hi
    rw [RTT_EXCHANGES] at hi
    interval_cases i <;> rfl

/-- Witness for the amended C4 at the all-success run with unit clock
steps. -/
theorem serverRtt_samples_amended_witness :
    ([1, 1, 1, 1, 1, 1, 1] : List ℚ).length = RTT_EXCHANGES - 1 ∧
    ([1, 3, 5, 7, 9, 11, 13, 15] : List ℚ).length = RTT_EXCHANGES ∧
    (∀ i, i < RTT_EXCHANGES →
      ([1, 3, 5, 7, 9, 11, 13, 15] : List ℚ).getD i 0 = natClock (2 * i + 1)) ∧
    (∀ i, i < RTT_EXCHANGES - 1 →
      ([1, 1, 1, 1, 1, 1, 1] : List ℚ).getD i 0 =
        natClock (2 * (i + 1)) - ([1, 3, 5, 7, 9, 11, 13, 15] : List ℚ).getD i 0) :=
  serverRtt_samples_amended allOk allOk natClock (fun _ => rfl) (fun _ => rfl)
    [1, 1, 1, 1, 1, 1, 1] [1, 3, 5, 7, 9, 11, 13, 15]
    (by rw [serverRttPhase_allOk allOk allOk natClock (fun _ => rfl) (fun _ => rfl)]
        norm_num [natClock])

/-- The client RTT loop of iPerfer.cpp lines 280-303: per iteration,
read the clock (send timestamp), send one probe byte (abort on
failure), wait for one ack byte (abort on failure), read the clock
again (receive timestamp), and append the difference.  `clock` is the
oracle of `now()` readings in call order. -/
def clientRttLoop (sendOk recvOk : Nat → Bool) (clock : Nat → ℚ) :
    Nat → Nat → Nat → List ℚ → Option (List ℚ)
  | 0, _, _, samples => some samples
  | remaining + 1, i, callIdx, samples =>
    if sendOk i = false then none
    else if recvOk i = false then none
    else clientRttLoop sendOk recvOk clock remaining (i + 1) (callIdx + 2)
      (samples ++ [clock (callIdx + 1) - clock callIdx])

/-- The client RTT phase entry (iPerfer.cpp lines 276-303):
`RTT_EXCHANGES` probe/ack exchanges starting at clock call 0. -/
def clientRttPhase (sendOk recvOk : Nat → Bool) (clock : Nat → ℚ) : Option (List ℚ) :=
  clientRttLoop sendOk recvOk clock RTT_EXCHANGES 0 0 []

/-- A fully successful client RTT phase, closed form: eight samples
`clock (2k+1) - clock (2k)`. -/
theorem clientRttPhase_allOk (sendOk recvOk : Nat → Bool) (clock : Nat → ℚ)
    (h1 : ∀ i, sendOk i = true) (h2 : ∀ i, recvOk i = true) :
    clientRttPhase sendOk recvOk clock =
      some [clock 1 - clock 0, clock 3 - clock 2, clock 5 - clock 4, clock 7 - clock 6,
            clock 9 - clock 8, clock 11 - clock 10, clock 13 - clock 12,
            clock 15 - clock 14] := by
  simp [clientRttPhase, RTT_EXCHANGES, clientRttLoop, h1, h2]

/-- C6: after every Transfer phase (both phases start from zero
counters), the recorded byte total equals `chunkCount * CHUNK_SIZE`
(80 000 here), in both roles: partial chunks never reach either
statistic. -/
theorem transfer_totals_exact (elapsedAt : Nat → ℚ) (D : ℚ)
    (cSendOk cRecvOk sRecvOk sSendOk : Nat → Bool) (cFuel sFuel b c b' c' : Nat)
    (hc : clientTransferLoop elapsedAt D cSendOk cRecvOk cFuel 0 0 0 = some (b, c))
    (hs : serverTransferLoop sRecvOk sSendOk sFuel 0 0 0 = some (b', c')) :
    b = c * CHUNK_SIZE ∧ b' = c' * CHUNK_SIZE :=
  ⟨clientTransferLoop_invariant elapsedAt D cSendOk cRecvOk cFuel 0 0 0 b c hc rfl,
   serverTransferLoop_invariant sRecvOk sSendOk sFuel 0 0 0 b' c' hs rfl⟩

/-- Witness for C6: a client run that sends two chunks before its 2 s
duration elapses, and a server run that stops at the third receive. -/
theorem transfer_totals_exact_witness :
    (clientTransferLoop natClock 2 allOk allOk 10 0 0 0 = some (160000, 2)) ∧
    (serverTransferLoop rOkDemo allOk 10 0 0 0 = some (160000, 2)) ∧
    160000 = 2 * CHUNK_SIZE ∧ 160000 = 2 * CHUNK_SIZE := by
  refine ⟨by decide, by decide, ?_⟩
  exact transfer_totals_exact natClock 2 allOk allOk rOkDemo allOk 10 10
    160000 2 160000 2 (by decide) (by decide)

/-- Rounding of `std::round` (iPerfer.cpp lines 173 and 320): halfway
cases away from zero. -/
def roundHalfAwayFromZero (q : ℚ) : Int :=
  if q < 0 then -(⌊-q + 1 / 2⌋) else ⌊q + 1 / 2⌋

/-- The values printed by the summary line (iPerfer.cpp lines 227-228
and 382-383). -/
structure Report where
  totalKB : Nat
  rateMbps : ℚ
  rttMillis : Int
  deriving Repr, DecidableEq

/-- Assembly of the summary from the transfer statistics and the RTT
estimate in milliseconds, shared by both roles: the throughput block
uses `avgRTTsec = avgRTT / 1000` (lines 174/322) and the printed RTT is
the rounded millisecond estimate (lines 173/320). -/
def mkReport (bytes chunkCount : Nat) (dataSeconds avgRTTms : ℚ) : Report :=
  let t := computeThroughput bytes chunkCount dataSeconds (avgRTTms / 1000)
  ⟨t.totalKB, t.rateMbps, roundHalfAwayFromZero avgRTTms⟩

/-- The whole client session after connecting (iPerfer.cpp lines
276-384): RTT phase — on failure `return`, no summary; transfer loop;
then the summary is computed and printed.  `none` means no summary line
was produced (RTT abort, or fuel exhaustion of the model). -/
def runClientModel (rttSendOk rttRecvOk : Nat → Bool) (rttClock : Nat → ℚ)
    (elapsedAt : Nat → ℚ) (D : ℚ) (tSendOk tRecvOk : Nat → Bool) (fuel : Nat)
    (dataSeconds : ℚ) : Option Report :=
  match clientRttPhase rttSendOk rttRecvOk rttClock with
  | none => none
  | some samples =>
    match clientTransferLoop elapsedAt D tSendOk tRecvOk fuel 0 0 0 with
    | none => none
    | some (bytes, count) => some (mkReport bytes count dataSeconds (avgRTT samples))

/-- The whole server session after accepting (iPerfer.cpp lines
120-229), with the same conventions as `runClientModel`. -/
def runServerModel (rttRecvOk rttSendOk : Nat → Bool) (rttClock : Nat → ℚ)
    (tRecvOk tSendOk : Nat → Bool) (fuel : Nat) (dataSeconds : ℚ) : Option Report :=
  match serverRttPhase rttRecvOk rttSendOk rttClock with
  | none => none
  | some (samples, _) =>
    match serverTransferLoop tRecvOk tSendOk fuel 0 0 0 with
    | none => none
    | some (bytes, count) => some (mkReport bytes count dataSeconds (avgRTT samples))

/-- An I/O failure anywhere within the client RTT loop's iteration range
aborts the phase. -/
theorem clientRttLoop_fail (sendOk recvOk : Nat → Bool) (clock : Nat → ℚ) :
    ∀ (remaining i callIdx : Nat) (samples : List ℚ) (j : Nat),
      i ≤ j → j < i + remaining → (sendOk j = false ∨ recvOk j = false) →
      clientRttLoop sendOk recvOk clock remaining i callIdx samples = none := by
  intro remaining
  induction remaining with
  | zero => intro i callIdx samples j h1 h2 h3; omega
  | succ remaining ih =>
    intro i callIdx samples j h1 h2 h3
    rw [clientRttLoop]
    by_cases hsi : sendOk i = false
    · rw [if_pos hsi]
    · rw [if_neg hsi]
      by_cases hri : recvOk i = false
      · rw [if_pos hri]
      · rw [if_neg hri]
        have hij : i ≠ j := by
          rintro rfl
          rcases h3 with h | h
          · exact hsi h
          · exact hri h
        exact ih (i + 1) (callIdx + 2) _ j (by omega) (by omega) h3

/-- An I/O failure anywhere within the server RTT loop's iteration range
aborts the phase. -/
theorem serverRttLoop_fail (recvOk sendOk : Nat → Bool) (clock : Nat → ℚ) :
    ∀ (remaining i callIdx : Nat) (ack : ℚ) (haveLast : Bool)
      (samples postSend : List ℚ) (j : Nat),
      i ≤ j → j < i + remaining → (recvOk j = false ∨ sendOk j = false) →
      serverRttLoop recvOk sendOk clock remaining i callIdx ack haveLast
        samples postSend = none := by
  intro remaining
  induction remaining with
  | zero => intro i callIdx ack haveLast samples postSend j h1 h2 h3; omega
  | succ remaining ih =>
    intro i callIdx ack haveLast samples postSend j h1 h2 h3
    rw [serverRttLoop]
    by_cases hri : recvOk i = false
    · rw [if_pos hri]
    · rw [if_neg hri]
      simp only
      by_cases hsi : sendOk i = false
      · rw [if_pos hsi]
      · rw [if_neg hsi]
        have hij : i ≠ j := by
          rintro rfl
          rcases h3 with h | h
          · exact hri h
          · exact hsi h
        exact ih (i + 1) _ _ _ _ _ j (by omega) (by omega) h3

/-- Clock that always reads 0 — a transfer phase whose duration never
elapses on its own. -/
def zeroClock : Nat → ℚ := fun _ => 0

/-- Counterexample to C3 as stated.  Concrete client run: the RTT phase
fully succeeds, the first chunk send succeeds, and the wait for that
chunk's acknowledgment fails (`noneOk`) — an I/O failure during the
Transfer phase.  The code merely breaks out of the transfer loop and
still computes and prints the summary, so the session does enter
Report, contradicting the claim that it jumps to Closed with no
summary. -/
theorem transfer_failure_still_reports :
    runClientModel allOk allOk natClock zeroClock 1 allOk noneOk 5 1 ≠ none := by
  rw [runClientModel,
    clientRttPhase_allOk allOk allOk natClock (fun _ => rfl) (fun _ => rfl)]
  rw [clientTransferLoop]
  rw [if_neg (by norm_num [zeroClock]), if_neg (by decide), if_pos (by decide)]
  simp

/-- C3 as amended: in both roles an I/O failure during the RttProbe
phase aborts the session before Report — no summary is emitted; but an
I/O failure during the Transfer phase only terminates the transfer
loop, and the session still enters Report and emits a summary.  The
four clauses: (1) client RTT failure, (2) server RTT failure, (3)
client whose first chunk's ack read fails, (4) server whose first chunk
receive fails (also its normal end-of-stream path). -/
theorem io_failure_report_amended
    (aS aR : Nat → Bool) (aClock aEl : Nat → ℚ) (aD : ℚ) (aTS aTR : Nat → Bool)
    (aFuel : Nat) (aDS : ℚ) (j : Nat) (hj : j < RTT_EXCHANGES)
    (hjf : aS j = false ∨ aR j = false)
    (bR bS : Nat → Bool) (bClock : Nat → ℚ) (bTR bTS : Nat → Bool)
    (bFuel : Nat) (bDS : ℚ) (k : Nat) (hk : k < RTT_EXCHANGES)
    (hkf : bR k = false ∨ bS k = false)
    (cS cR : Nat → Bool) (cClock cEl : Nat → ℚ) (cD : ℚ) (cTS cTR : Nat → Bool)
    (cFuel : Nat) (cDS : ℚ)
    (hcS : ∀ i, cS i = true) (hcR : ∀ i, cR i = true)
    (hel : cEl 0 < cD) (hts : cTS 0 = true) (htr : cTR 0 = false)
    (dR dS : Nat → Bool) (dClock : Nat → ℚ) (dTR dTS : Nat → Bool)
    (dFuel : Nat) (dDS : ℚ)
    (hdR : ∀ i, dR i = true) (hdS : ∀ i, dS i = true) (hdtr : dTR 0 = false) :
    runClientModel aS aR aClock aEl aD aTS aTR aFuel aDS = none ∧
    runServerModel bR bS bClock bTR bTS bFuel bDS = none ∧
    runClientModel cS cR cClock cEl cD cTS cTR (cFuel + 1) cDS ≠ none ∧
    runServerModel dR dS dClock dTR dTS (dFuel + 1) dDS ≠ none := by
  refine ⟨?_, ?_, ?_, ?_⟩
  · rw [runClientModel, clientRttPhase,
      clientRttLoop_fail aS aR aClock RTT_EXCHANGES 0 0 [] j (Nat.zero_le j)
        (by omega) hjf]
  · rw [runServerModel, serverRttPhase,
      serverRttLoop_fail bR bS bClock RTT_EXCHANGES 0 1 (bClock 0) false [] [] k
        (Nat.zero_le k) (by omega) hkf]
  · rw [runClientModel, clientRttPhase_allOk cS cR cClock hcS hcR]
    rw [clientTransferLoop]
    rw [if_neg (not_le.mpr hel), if_neg (by simp [hts]), if_pos (by simp [htr])]
    simp
  · rw [runServerModel, serverRttPhase_allOk dR dS dClock hdR hdS]
    rw [serverTransferLoop]
    rw [if_pos (by simp [hdtr])]
    simp

/-- Witness for the amended C3: claims (1)/(2) at runs whose very first
probe byte fails, claims (3)/(4) at the concrete runs described in the
theorem. -/
theorem io_failure_report_amended_witness :
    runClientModel noneOk allOk natClock zeroClock 1 allOk allOk 5 1 = none ∧
    runServerModel noneOk allOk natClock allOk allOk 5 1 = none ∧
    runClientModel allOk allOk natClock zeroClock 1 allOk noneOk (4 + 1) 1 ≠ none ∧
    runServerModel allOk allOk natClock noneOk allOk (4 + 1) 1 ≠ none :=
  io_failure_report_amended noneOk allOk natClock zeroClock 1 allOk allOk 5 1
    0 (by decide) (Or.inl rfl)
    noneOk allOk natClock allOk allOk 5 1 0 (by decide) (Or.inl rfl)
    allOk allOk natClock zeroClock 1 allOk noneOk 4 1
    (fun _ => rfl) (fun _ => rfl) (by norm_num [zeroClock]) rfl rfl
    allOk allOk natClock noneOk allOk 4 1
    (fun _ => rfl) (fun _ => rfl) rfl

/-- Outcome of a whole process run once the role function is entered:
either the process called `exit` during setup, or the role function
returned to `main` carrying the summary it may have printed. -/
inductive ProcResult where
  | exited (code : Nat)
  | returned (report : Option Report)
  deriving Repr, DecidableEq

/-- Client process around `runClient` (iPerfer.cpp lines 235-384 and
main's call on line 463): every setup failure before the protocol
(`getaddrinfo`, `socket`, `connect`) calls `exit(1)`; once the
connection is established the function runs the session and returns
normally whatever happens mid-protocol. -/
def runClientProc (setupOk : Bool) (rttSendOk rttRecvOk : Nat → Bool)
    (rttClock elapsedAt : Nat → ℚ) (D : ℚ) (tSendOk tRecvOk : Nat → Bool)
    (fuel : Nat) (dataSeconds : ℚ) : ProcResult :=
  if setupOk then
    .returned (runClientModel rttSendOk rttRecvOk rttClock elapsedAt D
      tSendOk tRecvOk fuel dataSeconds)
  else .exited 1

/-- Server process around `runServer` (iPerfer.cpp lines 66-229 and
main's call on line 447): setup failures (`socket`, `bind`, `listen`,
`accept`) call `exit(1)`; after a client connects the function runs the
session and returns normally. -/
def runServerProc (setupOk : Bool) (rttRecvOk rttSendOk : Nat → Bool)
    (rttClock : Nat → ℚ) (tRecvOk tSendOk : Nat → Bool) (fuel : Nat)
    (dataSeconds : ℚ) : ProcResult :=
  if setupOk then
    .returned (runServerModel rttRecvOk rttSendOk rttClock tRecvOk tSendOk
      fuel dataSeconds)
  else .exited 1

/-- Exit status of the process: `exit(code)` during setup, otherwise
`main` falls through to `return 0` (iPerfer.cpp line 472) after the
role function returns. -/
def mainExitCode : ProcResult → Nat
  | .exited c => c
  | .returned _ => 0

/-- C10: whenever the connection is established (`setupOk = true`), the
process exit status is 0 — even for runs in which the session aborts on
a mid-protocol I/O failure and produces no report (`= none`): the role
functions return normally and `main` returns 0. -/
theorem established_connection_exits_zero
    (aS aR : Nat → Bool) (aClock aEl : Nat → ℚ) (aD : ℚ) (aTS aTR : Nat → Bool)
    (aFuel : Nat) (aDS : ℚ)
    (bR bS : Nat → Bool) (bClock : Nat → ℚ) (bTR bTS : Nat → Bool)
    (bFuel : Nat) (bDS : ℚ)
    (hc : runClientModel aS aR aClock aEl aD aTS aTR aFuel aDS = none)
    (hs : runServerModel bR bS bClock bTR bTS bFuel bDS = none) :
    mainExitCode (runClientProc true aS aR aClock aEl aD aTS aTR aFuel aDS) = 0 ∧
    mainExitCode (runServerProc true bR bS bClock bTR bTS bFuel bDS) = 0 := by
  exact ⟨rfl, rfl⟩

/-- Witness for C10 at concrete aborted sessions: both roles lose their
very first RTT probe byte, no summary is produced, and the exit status
is still 0. -/
theorem established_connection_exits_zero_witness :
    mainExitCode (runClientProc true noneOk allOk natClock zeroClock 1 allOk allOk
      5 1) = 0 ∧
    mainExitCode (runServerProc true noneOk allOk natClock allOk allOk 5 1) = 0 :=
  established_connection_exits_zero noneOk allOk natClock zeroClock 1 allOk allOk 5 1
    noneOk allOk natClock allOk allOk 5 1
    (by rw [runClientModel, clientRttPhase,
          clientRttLoop_fail noneOk allOk natClock RTT_EXCHANGES 0 0 [] 0
            (Nat.zero_le 0) (by decide) (Or.inl rfl)])
    (by rw [runServerModel, serverRttPhase,
          serverRttLoop_fail noneOk allOk natClock RTT_EXCHANGES 0 1 (natClock 0)
            false [] [] 0 (Nat.zero_le 0) (by decide) (Or.inl rfl)])

end IPerfer
